import Mathlib

/-!
Verification development for the crystal-slice propagation and gain-saturation
engine of `rslaser/optics/crystal.py`.  Python floats are modelled as real
numbers, numpy meshes as functions `ℕ → ℕ → ℝ` together with explicit
coordinate-axis lists, and fallible constructors as `Except`.  External
numerical kernels (the scipy bivariate spline and the tabulated
cross-section spline) are modelled as function parameters, so every theorem
quantifying over them holds for any kernel.
-/

noncomputable section

open Filter Topology

/-- Planck constant [J s], the exact value used by `scipy.constants.h`. -/
def planck_h : ℝ := 6.62607015e-34

/-- Speed of light [m/s], the exact value used by `scipy.constants.c`. -/
def light_c : ℝ := 299792458

/-- Pump geometry tag, the `pump_type` configuration value. -/
inductive PumpType where
  | left
  | right
  | dual
deriving DecidableEq

/-- The `population_inversion` configuration block of a crystal slice. -/
structure PopInvCfg where
  n_cells : ℕ
  mesh_extent : ℝ
  crystal_alpha : ℝ
  pump_waist : ℝ
  pump_wavelength : ℝ
  pump_energy : ℝ
  pump_type : PumpType
  pump_gaussian_order : ℝ
  pump_offset_x : ℝ
  pump_offset_y : ℝ
  pump_rep_rate : ℝ

/-- The data of a `CrystalSlice` that the pump-deposition code reads:
slice length, zero-based slice index, and the pump configuration block. -/
structure SliceCfg where
  length : ℝ
  slice_index : ℕ
  pop : PopInvCfg

/-- Model of `np.linspace lo hi n`: `n` evenly spaced samples from `lo` to `hi`. -/
def linspace (lo hi : ℝ) (n : ℕ) : List ℝ :=
  (List.range n).map (fun i => lo + (hi - lo) * i / ((n : ℝ) - 1))

/-- Model of `np.max` of a (nonempty) list of reals. -/
def npMax (l : List ℝ) : ℝ := l.foldl max (l.headD 0)

/-- Model of `np.min` of a (nonempty) list of reals. -/
def npMin (l : List ℝ) : ℝ := l.foldl min (l.headD 0)

/-- The `fraction_to_heating` local of `_left_pump`/`_right_pump`:
`(seed_wavelength - pump_wavelength) / seed_wavelength` with the hard-coded
532 nm pump and 800 nm seed. -/
def fraction_to_heating : ℝ := (800 - 532) / 800

/-- The `integral_factor` local of `_left_pump`/`_right_pump`: closed form of
the radial integral of the super-Gaussian of order `g` and waist `w`. -/
def integral_factor (g w : ℝ) : ℝ :=
  ((2 : ℝ) ^ ((g - 2) / g) * Real.Gamma (2 / g)) /
    (g * (1 / w ^ g) ^ ((2 : ℝ) / g))

/-- The super-Gaussian transverse pump profile
`exp(-2 (sqrt((x-ox)^2 + (y-oy)^2) / w)^g)` appearing in the pump mesh. -/
def super_gaussian_profile (w ox oy g xv yv : ℝ) : ℝ :=
  Real.exp (-2 * (Real.sqrt ((xv - ox) ^ 2 + (yv - oy) ^ 2) / w) ^ g)

/-- The `correction_factor` local of `_left_pump`/`_right_pump`: flat-top
correction comparing exact Beer-Lambert absorption over the slice extent
`[z - L/2, z + L/2]` with the constant-density value at the slice center. -/
def correction_factor (alpha L z : ℝ) : ℝ :=
  ((Real.exp (-alpha * (z - L / 2)) - Real.exp (-alpha * (z + L / 2))) / alpha) /
    (Real.exp (-alpha * z) * L)

/-- Longitudinal slice-center position used by `_left_pump`:
`z = length * (slice_index + 0.5)`. -/
def slice_z_left (s : SliceCfg) : ℝ := s.length * ((s.slice_index : ℝ) + 0.5)

/-- Longitudinal slice-center position used by `_right_pump`:
`z = length * ((nslice - slice_index - 1) + 0.5)`. -/
def slice_z_right (s : SliceCfg) (nslice : ℕ) : ℝ :=
  s.length * (((nslice : ℝ) - (s.slice_index : ℝ) - 1) + 0.5)

/-- Transliteration of `CrystalSlice._left_pump`, pointwise at transverse position `(xv, yv)`:
the excited-state density deposited by a pump entering the left face. -/
def left_pump (s : SliceCfg) (nslice : ℕ) (xv yv : ℝ) : ℝ :=
  (s.pop.pump_wavelength / (planck_h * light_c)) *
      (((1 - Real.exp (-s.pop.crystal_alpha * s.length * (nslice : ℝ))) *
            (1 - fraction_to_heating) * s.pop.pump_energy *
            super_gaussian_profile s.pop.pump_waist s.pop.pump_offset_x
              s.pop.pump_offset_y s.pop.pump_gaussian_order xv yv) /
        (Real.pi * integral_factor s.pop.pump_gaussian_order s.pop.pump_waist)) *
      Real.exp (-s.pop.crystal_alpha * slice_z_left s) *
      correction_factor s.pop.crystal_alpha s.length (slice_z_left s) /
    (s.length * (nslice : ℝ))

/-- Transliteration of `CrystalSlice._right_pump`, pointwise at transverse position `(xv, yv)`:
identical to `_left_pump` with the mirrored slice-center position. -/
def right_pump (s : SliceCfg) (nslice : ℕ) (xv yv : ℝ) : ℝ :=
  (s.pop.pump_wavelength / (planck_h * light_c)) *
      (((1 - Real.exp (-s.pop.crystal_alpha * s.length * (nslice : ℝ))) *
            (1 - fraction_to_heating) * s.pop.pump_energy *
            super_gaussian_profile s.pop.pump_waist s.pop.pump_offset_x
              s.pop.pump_offset_y s.pop.pump_gaussian_order xv yv) /
        (Real.pi * integral_factor s.pop.pump_gaussian_order s.pop.pump_waist)) *
      Real.exp (-s.pop.crystal_alpha * slice_z_right s nslice) *
      correction_factor s.pop.crystal_alpha s.length (slice_z_right s nslice) /
    (s.length * (nslice : ℝ))

/-- Transliteration of `CrystalSlice._dual_pump`: sum of the left- and right-pump meshes. -/
def dual_pump (s : SliceCfg) (nslice : ℕ) (xv yv : ℝ) : ℝ :=
  left_pump s nslice xv yv + right_pump s nslice xv yv

/-- Transliteration of the excited-states mesh initialization of `CrystalSlice`: the cell `(i, j)` of the
excited-state-density mesh; the coordinate axis is
`np.linspace(-mesh_extent, mesh_extent, n_cells)` and `np.meshgrid` makes
`xv` vary along `j` and `yv` along `i`. -/
def excited_states_mesh (s : SliceCfg) (nslice : ℕ) : ℕ → ℕ → ℝ :=
  fun i j =>
    let x := linspace (-s.pop.mesh_extent) s.pop.mesh_extent s.pop.n_cells
    match s.pop.pump_type with
    | PumpType.dual => dual_pump s nslice (x.getD j 0) (x.getD i 0)
    | PumpType.left => left_pump s nslice (x.getD j 0) (x.getD i 0)
    | PumpType.right => right_pump s nslice (x.getD j 0) (x.getD i 0)

/-- Replace the pump-type tag of a slice configuration, all else equal. -/
def withPumpType (s : SliceCfg) (t : PumpType) : SliceCfg :=
  { s with pop := { s.pop with pump_type := t } }

/-- Modelled from the spec: the pump photon energy `h c / lambda` named by the
claim "pump photon energy"; the source itself holds no such quantity. -/
def pump_photon_energy (lam : ℝ) : ℝ := planck_h * light_c / lam

/-- Modelled from the spec: the deposited-density formula claimed for the
one-sided (left) pump, whose leading factor is
"(pump photon energy / hc)" instead of the source's wavelength factor. -/
def claimed_left_pump (s : SliceCfg) (nslice : ℕ) (xv yv : ℝ) : ℝ :=
  (pump_photon_energy s.pop.pump_wavelength / (planck_h * light_c)) *
      (((1 - Real.exp (-s.pop.crystal_alpha * s.length * (nslice : ℝ))) *
            (1 - fraction_to_heating) * s.pop.pump_energy *
            super_gaussian_profile s.pop.pump_waist s.pop.pump_offset_x
              s.pop.pump_offset_y s.pop.pump_gaussian_order xv yv) /
        (Real.pi * integral_factor s.pop.pump_gaussian_order s.pop.pump_waist)) *
      Real.exp (-s.pop.crystal_alpha * slice_z_left s) *
      correction_factor s.pop.crystal_alpha s.length (slice_z_left s) /
    (s.length * (nslice : ℝ))

/-- The line `gamma = np.sqrt(n2 / n0)` of `_propagate_n0n2_lct`. -/
def lct_gamma (n0 n2 : ℝ) : ℝ := Real.sqrt (n2 / n0)

/-- The line `A = np.cos(gamma * L_cryst)` of `_propagate_n0n2_lct`. -/
def lct_A (n0 n2 L : ℝ) : ℝ := Real.cos (lct_gamma n0 n2 * L)

/-- The line `B = (1/gamma) * np.sin(gamma * L_cryst) * phLambda / l_scale**2`
of `_propagate_n0n2_lct`, in the ideal real-number model; it is faithful only
where `gamma` is nonzero (n2 > 0), since Lean's total division puts `1/0 = 0`
while the source's float division makes `1/gamma` infinite at n2 = 0.  The
degenerate n2 = 0 case is covered by the float-tracked model `fl_B` below. -/
def lct_B (n0 n2 L lam l_scale : ℝ) : ℝ :=
  (1 / lct_gamma n0 n2) * Real.sin (lct_gamma n0 n2 * L) * lam / l_scale ^ 2

/-- The line `C = -gamma * np.sin(gamma * L_cryst) / phLambda * l_scale**2`
of `_propagate_n0n2_lct`. -/
def lct_C (n0 n2 L lam l_scale : ℝ) : ℝ :=
  -lct_gamma n0 n2 * Real.sin (lct_gamma n0 n2 * L) / lam * l_scale ^ 2

/-- The line `D = np.cos(gamma * L_cryst)` of `_propagate_n0n2_lct`. -/
def lct_D (n0 n2 L : ℝ) : ℝ := Real.cos (lct_gamma n0 n2 * L)

/-- Model of a numpy float value: `some x` is a finite value whose ideal real
content is `x`; `none` is a non-finite value (an infinity or nan).  The
operations below track exactly the feature the degenerate n2 = 0 case of
`_propagate_n0n2_lct` needs: division by zero and the square root of a
negative number give a non-finite value, and arithmetic with a non-finite
operand stays non-finite (in IEEE arithmetic `inf * 0 = nan`, and
`x - inf`, `x * nan`, `nan / x` are all non-finite).  Rounding and overflow
are not modelled, and division by a non-finite value (which IEEE can round to
a finite zero) is conservatively mapped to non-finite; no theorem below
relies on that case.  Multiplication of float values. -/
def fl_mul (x y : Option ℝ) : Option ℝ :=
  match x, y with
  | some a, some b => some (a * b)
  | _, _ => none

/-- Subtraction of float values (see `fl_mul` for the model). -/
def fl_sub (x y : Option ℝ) : Option ℝ :=
  match x, y with
  | some a, some b => some (a - b)
  | _, _ => none

/-- Negation of a float value (see `fl_mul` for the model). -/
def fl_neg (x : Option ℝ) : Option ℝ :=
  match x with
  | some a => some (-a)
  | none => none

/-- Division of float values: a zero divisor gives a non-finite result
(numpy emits `inf` or `nan` there); see `fl_mul` for the model. -/
def fl_div (x y : Option ℝ) : Option ℝ :=
  match x, y with
  | some a, some b => if b = 0 then none else some (a / b)
  | _, _ => none

/-- Square root of a float value: negative arguments give nan; see `fl_mul`
for the model. -/
def fl_sqrt (x : Option ℝ) : Option ℝ :=
  match x with
  | some a => if a < 0 then none else some (Real.sqrt a)
  | none => none

/-- Sine of a float value (sine of an infinity or nan is nan). -/
def fl_sin (x : Option ℝ) : Option ℝ :=
  match x with
  | some a => some (Real.sin a)
  | none => none

/-- Cosine of a float value (cosine of an infinity or nan is nan). -/
def fl_cos (x : Option ℝ) : Option ℝ :=
  match x with
  | some a => some (Real.cos a)
  | none => none

/-- Float-tracked `gamma = np.sqrt(n2 / n0)` of `_propagate_n0n2_lct`. -/
def fl_gamma (n0 n2 : ℝ) : Option ℝ := fl_sqrt (fl_div (some n2) (some n0))

/-- Float-tracked `A = np.cos(gamma * L_cryst)` of `_propagate_n0n2_lct`. -/
def fl_A (n0 n2 L : ℝ) : Option ℝ :=
  fl_cos (fl_mul (fl_gamma n0 n2) (some L))

/-- Float-tracked
`B = (1/gamma) * np.sin(gamma * L_cryst) * phLambda / l_scale**2` of
`_propagate_n0n2_lct`; at n2 = 0 the division `1/gamma` is by zero, so the
whole entry is non-finite, exactly as numpy computes `inf * sin(0) = nan`. -/
def fl_B (n0 n2 L lam l_scale : ℝ) : Option ℝ :=
  fl_div
    (fl_mul
      (fl_mul (fl_div (some 1) (fl_gamma n0 n2))
        (fl_sin (fl_mul (fl_gamma n0 n2) (some L))))
      (some lam))
    (some (l_scale ^ 2))

/-- Float-tracked
`C = -gamma * np.sin(gamma * L_cryst) / phLambda * l_scale**2` of
`_propagate_n0n2_lct`. -/
def fl_C (n0 n2 L lam l_scale : ℝ) : Option ℝ :=
  fl_mul
    (fl_div
      (fl_mul (fl_neg (fl_gamma n0 n2))
        (fl_sin (fl_mul (fl_gamma n0 n2) (some L))))
      (some lam))
    (some (l_scale ^ 2))

/-- Float-tracked `D = np.cos(gamma * L_cryst)` of `_propagate_n0n2_lct`. -/
def fl_D (n0 n2 L : ℝ) : Option ℝ :=
  fl_cos (fl_mul (fl_gamma n0 n2) (some L))

/-- Float-tracked determinant `A * D - B * C` of the n0n2 LCT matrix. -/
def fl_det (n0 n2 L lam l_scale : ℝ) : Option ℝ :=
  fl_sub (fl_mul (fl_A n0 n2 L) (fl_D n0 n2 L))
    (fl_mul (fl_B n0 n2 L lam l_scale) (fl_C n0 n2 L lam l_scale))

/-- The propagation-strategy keys dispatched by `CrystalSlice.propagate`. -/
inductive PropType where
  | attenuate
  | placeholder
  | abcd_lct
  | n0n2_lct
  | n0n2_srw
  | gain_calc
  | default
deriving DecidableEq

/-- The guard of the `radial_n2` branch of `Crystal.propagate`:
`assert prop_type == "n0n2_srw"`. -/
def radial_n2_assert (prop_type : PropType) : Except String Unit :=
  if prop_type = PropType.n0n2_srw then Except.ok ()
  else Except.error "ERROR -- Only implemented for n0n2_srw"

/-- Type of the external `scipy.interpolate.RectBivariateSpline` kernel:
from the source axes and source values it builds an evaluation function. -/
def SplineBuilder : Type :=
  List ℝ → List ℝ → (ℕ → ℕ → ℝ) → ℝ → ℝ → ℝ

/-- The update `temp_array[b_x > np.max(a_x), :] = 0.0`: rows whose x coordinate
exceeds the threshold are set to zero. -/
def mask_x_gt (b_x : List ℝ) (t : ℝ) (m : ℕ → ℕ → ℝ) : ℕ → ℕ → ℝ :=
  fun i j => if t < b_x.getD i 0 then 0 else m i j

/-- The update `temp_array[b_x < np.min(a_x), :] = 0.0`. -/
def mask_x_lt (b_x : List ℝ) (t : ℝ) (m : ℕ → ℕ → ℝ) : ℕ → ℕ → ℝ :=
  fun i j => if b_x.getD i 0 < t then 0 else m i j

/-- The update `temp_array[:, b_y > np.max(a_y)] = 0.0`. -/
def mask_y_gt (b_y : List ℝ) (t : ℝ) (m : ℕ → ℕ → ℝ) : ℕ → ℕ → ℝ :=
  fun i j => if t < b_y.getD j 0 then 0 else m i j

/-- The update `temp_array[:, b_y < np.min(a_y)] = 0.0`. -/
def mask_y_lt (b_y : List ℝ) (t : ℝ) (m : ℕ → ℕ → ℝ) : ℕ → ℕ → ℝ :=
  fun i j => if b_y.getD j 0 < t then 0 else m i j

/-- The grid-resampling core of `CrystalSlice._interpolate_a_to_b`
(both branches share it): if the source axes `(a_x, a_y)` coincide with the
destination axes `(b_x, b_y)` the source values are returned unchanged;
otherwise the spline built over the source is evaluated at the destination
coordinates and the four out-of-range masks of the source are applied in the
order of the source lines. -/
def interp_core (a_x a_y : List ℝ) (temp : ℕ → ℕ → ℝ) (b_x b_y : List ℝ)
    (SB : SplineBuilder) : ℕ → ℕ → ℝ :=
  if a_x = b_x ∧ a_y = b_y then temp
  else
    mask_y_lt b_y (npMin a_y)
      (mask_y_gt b_y (npMax a_y)
        (mask_x_lt b_x (npMin a_x)
          (mask_x_gt b_x (npMax a_x)
            (fun i j => SB a_x a_y temp (b_x.getD i 0) (b_y.getD j 0)))))

/-- The wavefront-mesh header of an SRW wavefront: grid bounds and counts. -/
structure WfrMesh where
  xStart : ℝ
  xFin : ℝ
  nx : ℕ
  yStart : ℝ
  yFin : ℝ
  ny : ℕ

/-- A pulse sub-slice (external `LaserPulseSlice`), with its wavefront grid,
central wavelength `_lambda0`, photon energy, photon-count mesh and the four
real arrays of the two complex field components. -/
structure SubSlice where
  mesh : WfrMesh
  lambda0 : ℝ
  photon_e_ev : ℝ
  n_photons : ℕ → ℕ → ℝ
  ex_re : ℕ → ℕ → ℝ
  ex_im : ℕ → ℕ → ℝ
  ey_re : ℕ → ℕ → ℝ
  ey_im : ℕ → ℕ → ℝ

/-- The state of a `CrystalSlice` that `calc_gain` reads and writes:
slice length, pump configuration (for the inversion-mesh axes), the mutable
excited-state mesh, and the tabulated-spline cross-section lookup
(`splev(lambda0, cross_section_fn)`, an external kernel). -/
structure CrystalSliceState where
  length : ℝ
  pop : PopInvCfg
  pop_inversion_mesh : ℕ → ℕ → ℝ
  cross_section_fn : ℝ → ℝ

/-- The inversion-mesh coordinate axis
`np.linspace(-mesh_extent, mesh_extent, n_cells)`. -/
def pop_axis (s : CrystalSliceState) : List ℝ :=
  linspace (-s.pop.mesh_extent) s.pop.mesh_extent s.pop.n_cells

/-- The `a == "pop_inversion"` branch of `_interpolate_a_to_b`: resample the
slice's excited-state mesh onto the wavefront grid `b`. -/
def interp_pop_to_wfr (SB : SplineBuilder) (s : CrystalSliceState)
    (b : WfrMesh) : ℕ → ℕ → ℝ :=
  interp_core (pop_axis s) (pop_axis s) s.pop_inversion_mesh
    (linspace b.xStart b.xFin b.nx) (linspace b.yStart b.yFin b.ny) SB

/-- The `b == "pop_inversion"` branch of `_interpolate_a_to_b`: resample a
mesh with axes `(a_x, a_y)` onto the slice's inversion grid. -/
def interp_to_pop (SB : SplineBuilder) (s : CrystalSliceState)
    (a_x a_y : List ℝ) (m : ℕ → ℕ → ℝ) : ℕ → ℕ → ℝ :=
  interp_core a_x a_y m (pop_axis s) (pop_axis s) SB

/-- The constant `degen_factor = 1.67` of `calc_gain`. -/
def degen_factor : ℝ := 1.67

/-- The mesh `n_incident_photons = thisSlice.n_photons_2d.mesh / (dx * dy)` with
`dx = (xFin - xStart)/nx` and `dy = (yFin - yStart)/ny`. -/
def n_incident (t : SubSlice) : ℕ → ℕ → ℝ :=
  fun i j =>
    t.n_photons i j /
      (((t.mesh.xFin - t.mesh.xStart) / (t.mesh.nx : ℝ)) *
        ((t.mesh.yFin - t.mesh.yStart) / (t.mesh.ny : ℝ)))

/-- The saturable-gain formula of `calc_gain`, as evaluated on the cells
selected by `np.where(n_incident_photons > 0)`. -/
def gain_formula (cross_sec L N nphot : ℝ) : ℝ :=
  (1 / (degen_factor * cross_sec * nphot)) *
    Real.log (1 + Real.exp (cross_sec * N * L) *
      (Real.exp (degen_factor * cross_sec * nphot) - 1))

/-- The `energy_gain` mesh of `calc_gain`: zero everywhere, overwritten by
`gain_formula` exactly on the cells where the incident photon areal density
is positive. -/
def energy_gain_mesh (SB : SplineBuilder) (s : CrystalSliceState)
    (t : SubSlice) : ℕ → ℕ → ℝ :=
  fun i j =>
    if 0 < n_incident t i j then
      gain_formula (s.cross_section_fn t.lambda0) s.length
        (interp_pop_to_wfr SB s t.mesh i j) (n_incident t i j)
    else 0

/-- The mesh `change_pop_mesh = -(degen_factor * n_incident_photons *
(energy_gain - 1.0) / self.length)` of `calc_gain`. -/
def change_pop_mesh (SB : SplineBuilder) (s : CrystalSliceState)
    (t : SubSlice) : ℕ → ℕ → ℝ :=
  fun i j =>
    -(degen_factor * n_incident t i j * (energy_gain_mesh SB s t i j - 1) /
      s.length)

/-- The change mesh resampled onto the inversion grid, as in `calc_gain`:
its axes are the wavefront's `np.linspace` coordinate arrays. -/
def change_pop_interp (SB : SplineBuilder) (s : CrystalSliceState)
    (t : SubSlice) : ℕ → ℕ → ℝ :=
  interp_to_pop SB s (linspace t.mesh.xStart t.mesh.xFin t.mesh.nx)
    (linspace t.mesh.yStart t.mesh.yFin t.mesh.ny) (change_pop_mesh SB s t)

/-- Transliteration of `CrystalSlice.calc_gain`: returns the updated slice state (inversion mesh
incremented in place by the resampled change mesh) and the updated sub-slice
(photon counts multiplied by the gain, both field components scaled by
`sqrt(gain)` cellwise, wavefront grid unchanged). -/
def calc_gain (SB : SplineBuilder) (s : CrystalSliceState) (t : SubSlice) :
    CrystalSliceState × SubSlice :=
  ({ s with
      pop_inversion_mesh := fun i j =>
        s.pop_inversion_mesh i j + change_pop_interp SB s t i j },
   { t with
      n_photons := fun i j => t.n_photons i j * energy_gain_mesh SB s t i j,
      ex_re := fun i j => t.ex_re i j * Real.sqrt (energy_gain_mesh SB s t i j),
      ex_im := fun i j => t.ex_im i j * Real.sqrt (energy_gain_mesh SB s t i j),
      ey_re := fun i j => t.ey_re i j * Real.sqrt (energy_gain_mesh SB s t i j),
      ey_im := fun i j => t.ey_im i j * Real.sqrt (energy_gain_mesh SB s t i j) })

/-- The crystal-level parameter record reaching `Crystal.__init__` after
parameter resolution (`_get_params` merges user input with defaults; the
negative-n2 check below runs on the resolved record). -/
structure CrystalParams where
  n0 : List ℝ
  n2 : List ℝ
  length : ℝ
  l_scale : ℝ
  nslice : ℕ
  pop : PopInvCfg

/-- A constructed `CrystalSlice` as built by the loop of `Crystal.__init__`:
the per-slice parameters together with the pump-deposited mesh built at
construction. -/
structure BuiltSlice where
  cfg : SliceCfg
  n0 : ℝ
  n2 : ℝ
  l_scale : ℝ
  mesh : ℕ → ℕ → ℝ

/-- A constructed `Crystal`. -/
structure CrystalState where
  length : ℝ
  nslice : ℕ
  l_scale : ℝ
  slices : List BuiltSlice

/-- One iteration of the slice-construction loop of `Crystal.__init__`:
per-slice parameters `n0 = params.n0[j]`, `n2 = params.n2[j]`,
`length = params.length / params.nslice`, `slice_index = j`, and the
excited-state mesh built by `CrystalSlice.__init__`. -/
def build_slice (p : CrystalParams) (j : ℕ) : BuiltSlice :=
  let cfg : SliceCfg :=
    { length := p.length / (p.nslice : ℝ), slice_index := j, pop := p.pop }
  { cfg := cfg
    n0 := p.n0.getD j 0
    n2 := p.n2.getD j 0
    l_scale := p.l_scale
    mesh := excited_states_mesh cfg p.nslice }

/-- Transliteration of `Crystal.__init__` on resolved parameters: raise when any `n2` entry is
negative, before any slice is constructed; otherwise build the slices. -/
def crystal_init (p : CrystalParams) : Except String CrystalState :=
  if p.n2.any (fun x => decide (x < 0)) then
    Except.error "You have specified negative value(s) for n2"
  else
    Except.ok
      { length := p.length
        nslice := p.nslice
        l_scale := p.l_scale
        slices := (List.range p.nslice).map (build_slice p) }

/-- The rebuilt output-wavefront grid bounds of `_propagate_n0n2_lct`:
`hx, hy` restore the kernel pitches by `l_scale`, `local_xv`/`local_yv` are
the kernel abscissae (`rslct.lct_abscissae`, an external kernel passed as
`absc`), and the four bounds are taken with `np.min`/`np.max` exactly as in
the source, where both vertical bounds read `local_xv`. -/
def rebuild_mesh_n0n2_lct (absc : ℕ → ℝ → List ℝ) (l_scale dX_out dY_out : ℝ)
    (nx ny : ℕ) : WfrMesh :=
  let hx := dX_out * l_scale
  let hy := dY_out * l_scale
  let local_xv := absc nx hx
  let local_yv := absc ny hy
  { xStart := npMin local_xv
    xFin := npMax local_xv
    nx := nx
    yStart := npMin local_xv
    yFin := npMax local_xv
    ny := ny }

/-- The identical rebuilt-bounds computation duplicated in
`_propagate_abcd_lct`. -/
def rebuild_mesh_abcd_lct (absc : ℕ → ℝ → List ℝ) (l_scale dX_out dY_out : ℝ)
    (nx ny : ℕ) : WfrMesh :=
  let hx := dX_out * l_scale
  let hy := dY_out * l_scale
  let local_xv := absc nx hx
  let local_yv := absc ny hy
  { xStart := npMin local_xv
    xFin := npMax local_xv
    nx := nx
    yStart := npMin local_xv
    yFin := npMax local_xv
    ny := ny }

/-- A trivial spline kernel used to instantiate witnesses. -/
def SB0 : SplineBuilder := fun _ _ _ _ _ => 0

/-- A concrete pump configuration block used by witnesses. -/
def samplePop : PopInvCfg :=
  { n_cells := 2
    mesh_extent := 1
    crystal_alpha := 1
    pump_waist := 1
    pump_wavelength := 2
    pump_energy := 1
    pump_type := PumpType.left
    pump_gaussian_order := 2
    pump_offset_x := 0
    pump_offset_y := 0
    pump_rep_rate := 1 }

/-- A concrete crystal-slice state used by witnesses. -/
def sampleSlice : CrystalSliceState :=
  { length := 1
    pop := samplePop
    pop_inversion_mesh := fun _ _ => 0
    cross_section_fn := fun _ => 1 }

/-- A concrete pulse sub-slice with zero photon counts. -/
def subZero : SubSlice :=
  { mesh := { xStart := 0, xFin := 1, nx := 1, yStart := 0, yFin := 1, ny := 1 }
    lambda0 := 1
    photon_e_ev := 1
    n_photons := fun _ _ => 0
    ex_re := fun _ _ => 0
    ex_im := fun _ _ => 0
    ey_re := fun _ _ => 0
    ey_im := fun _ _ => 0 }

/-- A concrete pulse sub-slice with one photon per cell. -/
def subOne : SubSlice := { subZero with n_photons := fun _ _ => 1 }

/-- C2 counterexample: with the radial-n2 option enabled, the crystal-level
guard rejects the LCT-based strategy `n0n2_lct`, so the claim that only
`n0n2_via_LCT` is accepted is false. -/
theorem C2_counterexample :
    radial_n2_assert PropType.n0n2_lct =
      Except.error "ERROR -- Only implemented for n0n2_srw" := rfl

/-- C2 (amended): whenever crystal-level propagation runs with the radial-n2
blending option, the guard accepts exactly the SRW ray-beamline strategy
`n0n2_srw` and fails for every other strategy. -/
theorem C2_radial_gate (pt : PropType) :
    radial_n2_assert pt = Except.ok () ↔ pt = PropType.n0n2_srw := by
  cases pt <;> simp [radial_n2_assert]

/-- C4: in the gain computation, every cell whose incident photon areal
density is zero or negative keeps energy gain exactly 0, and the general
logarithmic gain formula (which divides by the incident density) is applied
exactly on the cells where the incident density is positive. -/
theorem C4_gain_guard (SB : SplineBuilder) (s : CrystalSliceState)
    (t : SubSlice) (i j : ℕ) :
    (n_incident t i j ≤ 0 → energy_gain_mesh SB s t i j = 0) ∧
    (0 < n_incident t i j → energy_gain_mesh SB s t i j =
      gain_formula (s.cross_section_fn t.lambda0) s.length
        (interp_pop_to_wfr SB s t.mesh i j) (n_incident t i j)) := by
  constructor
  · intro h
    simp [energy_gain_mesh, not_lt.mpr h]
  · intro h
    simp [energy_gain_mesh, h]

/-- C4 witness: concrete evaluation of the two branches of the guard. -/
theorem C4_witness :
    energy_gain_mesh SB0 sampleSlice subZero 0 0 = 0 ∧
    energy_gain_mesh SB0 sampleSlice subOne 0 0 =
      gain_formula (sampleSlice.cross_section_fn subOne.lambda0)
        sampleSlice.length (interp_pop_to_wfr SB0 sampleSlice subOne.mesh 0 0)
        (n_incident subOne 0 0) :=
  ⟨(C4_gain_guard SB0 sampleSlice subZero 0 0).1
      (by norm_num [n_incident, subZero]),
   (C4_gain_guard SB0 sampleSlice subOne 0 0).2
      (by norm_num [n_incident, subOne, subZero])⟩

/-- C5: every gain-computation call adds the resampled inversion change
`Δ = -degen_factor * n_incident * (gain - 1) / length` (computed on the
sub-slice's grid, resampled onto the inversion grid) in place to the stored
inversion mesh, and a second call accumulates on top of the first, so the
call is not pure in the slice state. -/
theorem C5_inversion_update (SB : SplineBuilder) (s : CrystalSliceState)
    (t t2 : SubSlice) :
    ((calc_gain SB s t).1.pop_inversion_mesh = fun i j =>
        s.pop_inversion_mesh i j +
          interp_to_pop SB s (linspace t.mesh.xStart t.mesh.xFin t.mesh.nx)
            (linspace t.mesh.yStart t.mesh.yFin t.mesh.ny)
            (fun i j =>
              -(degen_factor * n_incident t i j *
                (energy_gain_mesh SB s t i j - 1) / s.length)) i j) ∧
    ((calc_gain SB (calc_gain SB s t).1 t2).1.pop_inversion_mesh = fun i j =>
        s.pop_inversion_mesh i j + change_pop_interp SB s t i j +
          change_pop_interp SB (calc_gain SB s t).1 t2 i j) :=
  ⟨rfl, rfl⟩

/-- C7: the excited-state mesh under dual pumping equals the elementwise sum
of the meshes under left and right pumping for the identical configuration,
on the same coordinate grid. -/
theorem C7_dual_pump_sum (s : SliceCfg) (nslice : ℕ) (i j : ℕ) :
    excited_states_mesh (withPumpType s PumpType.dual) nslice i j =
      excited_states_mesh (withPumpType s PumpType.left) nslice i j +
        excited_states_mesh (withPumpType s PumpType.right) nslice i j := rfl

/-- C10: in both LCT-based strategies the rebuilt output wavefront takes both
vertical grid bounds from the horizontal abscissa array, so the output always
satisfies `yStart = xStart` and `yFin = xFin`, whatever pitches or sample
counts the kernel returns for the two axes. -/
theorem C10_y_bounds_from_x (absc : ℕ → ℝ → List ℝ)
    (l_scale dX_out dY_out : ℝ) (nx ny : ℕ) :
    ((rebuild_mesh_n0n2_lct absc l_scale dX_out dY_out nx ny).yStart =
        (rebuild_mesh_n0n2_lct absc l_scale dX_out dY_out nx ny).xStart ∧
      (rebuild_mesh_n0n2_lct absc l_scale dX_out dY_out nx ny).yFin =
        (rebuild_mesh_n0n2_lct absc l_scale dX_out dY_out nx ny).xFin) ∧
    ((rebuild_mesh_abcd_lct absc l_scale dX_out dY_out nx ny).yStart =
        (rebuild_mesh_abcd_lct absc l_scale dX_out dY_out nx ny).xStart ∧
      (rebuild_mesh_abcd_lct absc l_scale dX_out dY_out nx ny).yFin =
        (rebuild_mesh_abcd_lct absc l_scale dX_out dY_out nx ny).xFin) :=
  ⟨⟨rfl, rfl⟩, ⟨rfl, rfl⟩⟩

/-- The real-valued determinant identity on the faithful range n2 > 0. -/
lemma lct_det_pos (n0 n2 L lam l_scale : ℝ) (hn0 : 0 < n0) (hn2 : 0 < n2)
    (hlam : lam ≠ 0) (hl : l_scale ≠ 0) :
    lct_A n0 n2 L * lct_D n0 n2 L -
      lct_B n0 n2 L lam l_scale * lct_C n0 n2 L lam l_scale = 1 := by
  have hg : 0 < lct_gamma n0 n2 := Real.sqrt_pos.mpr (div_pos hn2 hn0)
  unfold lct_A lct_B lct_C lct_D
  have key : 1 / lct_gamma n0 n2 * Real.sin (lct_gamma n0 n2 * L) * lam /
        l_scale ^ 2 *
        (-lct_gamma n0 n2 * Real.sin (lct_gamma n0 n2 * L) / lam *
          l_scale ^ 2) =
      -(Real.sin (lct_gamma n0 n2 * L) * Real.sin (lct_gamma n0 n2 * L)) := by
    field_simp
    ring
  rw [key]
  linear_combination Real.sin_sq_add_cos_sq (lct_gamma n0 n2 * L)

/-- For n0 > 0 and n2 ≥ 0 the float-tracked gamma is finite and agrees with
the real-valued one. -/
lemma fl_gamma_eq (n0 n2 : ℝ) (hn0 : 0 < n0) (hn2 : 0 ≤ n2) :
    fl_gamma n0 n2 = some (lct_gamma n0 n2) := by
  simp only [fl_gamma, fl_div]
  rw [if_neg hn0.ne']
  simp only [fl_sqrt]
  rw [if_neg (not_lt.mpr (div_nonneg hn2 hn0.le))]
  rfl

/-- For n0 > 0 and n2 ≥ 0 the float-tracked A entry is finite and agrees
with the real-valued one. -/
lemma fl_A_eq (n0 n2 L : ℝ) (hn0 : 0 < n0) (hn2 : 0 ≤ n2) :
    fl_A n0 n2 L = some (lct_A n0 n2 L) := by
  rw [fl_A, fl_gamma_eq n0 n2 hn0 hn2]
  rfl

/-- For n0 > 0 and n2 ≥ 0 the float-tracked D entry is finite and agrees
with the real-valued one. -/
lemma fl_D_eq (n0 n2 L : ℝ) (hn0 : 0 < n0) (hn2 : 0 ≤ n2) :
    fl_D n0 n2 L = some (lct_D n0 n2 L) := by
  rw [fl_D, fl_gamma_eq n0 n2 hn0 hn2]
  rfl

/-- For n0 > 0 and n2 > 0 (so gamma is nonzero) and nonzero l_scale, the
float-tracked B entry is finite and agrees with the real-valued one. -/
lemma fl_B_eq (n0 n2 L lam l_scale : ℝ) (hn0 : 0 < n0) (hn2 : 0 < n2)
    (hl : l_scale ≠ 0) :
    fl_B n0 n2 L lam l_scale = some (lct_B n0 n2 L lam l_scale) := by
  have hg : lct_gamma n0 n2 ≠ 0 :=
    (Real.sqrt_pos.mpr (div_pos hn2 hn0)).ne'
  have hl2 : l_scale ^ 2 ≠ 0 := pow_ne_zero 2 hl
  rw [fl_B, fl_gamma_eq n0 n2 hn0 hn2.le]
  simp [fl_div, fl_mul, fl_sin, hg, hl2, lct_B]

/-- For n0 > 0, n2 ≥ 0 and nonzero wavelength, the float-tracked C entry is
finite and agrees with the real-valued one. -/
lemma fl_C_eq (n0 n2 L lam l_scale : ℝ) (hn0 : 0 < n0) (hn2 : 0 ≤ n2)
    (hlam : lam ≠ 0) :
    fl_C n0 n2 L lam l_scale = some (lct_C n0 n2 L lam l_scale) := by
  rw [fl_C, fl_gamma_eq n0 n2 hn0 hn2]
  simp [fl_neg, fl_mul, fl_sin, fl_div, hlam, lct_C]

/-- C8 counterexample: at n0 = 1, n2 = 0, L = 1, wavelength 1, l_scale 1 --
an input the claim covers, since it asks for every n2 ≥ 0 -- the source's B
entry divides by gamma = 0, so the float computation of B and of the
determinant A * D - B * C is non-finite (numpy evaluates `inf * sin(0)` to
nan), not 1. -/
theorem C8_counterexample :
    fl_det 1 0 1 1 1 = none ∧ fl_det 1 0 1 1 1 ≠ some 1 := by
  have h : fl_det 1 0 1 1 1 = none := by
    norm_num [fl_det, fl_A, fl_B, fl_C, fl_D, fl_gamma, fl_div, fl_mul,
      fl_sub, fl_neg, fl_sqrt, fl_sin, fl_cos, Real.sqrt_zero]
  exact ⟨h, by simp [h]⟩

/-- C8 (amended): for every n0 > 0, n2 > 0, L > 0, wavelength > 0 and
l_scale > 0, the float-tracked ABCD computation of the n0n2 LCT strategy is
finite and its determinant `A * D - B * C` equals exactly 1; at n2 = 0 the
computation is non-finite (division by gamma = 0), so the identity holds on
the strictly positive n2 range only. -/
theorem C8_det_one (n0 n2 L lam l_scale : ℝ) (hn0 : 0 < n0) (hn2 : 0 < n2)
    (hL : 0 < L) (hlam : 0 < lam) (hl : 0 < l_scale) :
    fl_det n0 n2 L lam l_scale = some 1 := by
  rw [fl_det, fl_A_eq n0 n2 L hn0 hn2.le, fl_D_eq n0 n2 L hn0 hn2.le,
    fl_B_eq n0 n2 L lam l_scale hn0 hn2 hl.ne',
    fl_C_eq n0 n2 L lam l_scale hn0 hn2.le hlam.ne']
  exact congrArg some (lct_det_pos n0 n2 L lam l_scale hn0 hn2 hlam.ne' hl.ne')

/-- C8 witness: the float-tracked determinant is exactly `some 1` at n0 = 1,
n2 = 1, L = 1, wavelength 1, l_scale 1. -/
theorem C8_witness : fl_det 1 1 1 1 1 = some 1 :=
  C8_det_one 1 1 1 1 1 (by norm_num) (by norm_num) (by norm_num) (by norm_num)
    (by norm_num)

/-- C9: any negative entry in the resolved n2 array makes crystal
construction fail with the configuration error before any slice is built, so
no constructed crystal is ever produced. -/
theorem C9_negative_n2 (p : CrystalParams) (h : ∃ x ∈ p.n2, x < 0) :
    crystal_init p = Except.error "You have specified negative value(s) for n2" ∧
    ∀ c : CrystalState, crystal_init p ≠ Except.ok c := by
  have hany : p.n2.any (fun x => decide (x < 0)) = true := by
    rcases h with ⟨x, hx, hneg⟩
    exact List.any_eq_true.mpr ⟨x, hx, decide_eq_true hneg⟩
  refine ⟨by simp [crystal_init, hany], fun c => by simp [crystal_init, hany]⟩

/-- Concrete crystal parameters with a negative n2 entry. -/
def negParams : CrystalParams :=
  { n0 := [1.75]
    n2 := [-1]
    length := 0.2
    l_scale := 1
    nslice := 1
    pop := samplePop }

/-- C9 witness: the concrete negative-n2 parameter record is rejected. -/
theorem C9_witness :
    crystal_init negParams =
      Except.error "You have specified negative value(s) for n2" ∧
    ∀ c : CrystalState, crystal_init negParams ≠ Except.ok c :=
  C9_negative_n2 negParams ⟨-1, by simp [negParams], by norm_num⟩

/-- C6: the grid resampler returns the source values unchanged when the
source and destination axes are identical on both coordinates, and otherwise
every destination sample whose x or y coordinate lies above the source's
maximum or below its minimum on that axis is exactly zero. -/
theorem C6_resampler (a_x a_y : List ℝ) (temp : ℕ → ℕ → ℝ)
    (b_x b_y : List ℝ) (SB : SplineBuilder) :
    (a_x = b_x ∧ a_y = b_y → interp_core a_x a_y temp b_x b_y SB = temp) ∧
    (¬(a_x = b_x ∧ a_y = b_y) → ∀ i j,
      (npMax a_x < b_x.getD i 0 ∨ b_x.getD i 0 < npMin a_x ∨
        npMax a_y < b_y.getD j 0 ∨ b_y.getD j 0 < npMin a_y) →
      interp_core a_x a_y temp b_x b_y SB i j = 0) := by
  constructor
  · intro h
    rw [interp_core, if_pos h]
  · intro h i j hout
    rw [interp_core, if_neg h]
    simp only [mask_y_lt, mask_y_gt, mask_x_lt, mask_x_gt]
    split_ifs with hc1 hc2 hc3 hc4
    · rfl
    · rfl
    · rfl
    · rfl
    · rcases hout with h1 | h1 | h1 | h1
      · exact absurd h1 hc4
      · exact absurd h1 hc3
      · exact absurd h1 hc2
      · exact absurd h1 hc1

/-- Source axis used by the C6 witness. -/
def axW : List ℝ := [0, 1]

/-- Destination axis used by the C6 witness, reaching outside the source. -/
def bxW : List ℝ := [0, 2]

/-- C6 witness: identical axes return the source values; the destination
sample at coordinate 2, beyond the source maximum 1, is zero. -/
theorem C6_witness :
    interp_core axW axW (fun _ _ => (5 : ℝ)) axW axW SB0 = (fun _ _ => (5 : ℝ)) ∧
    interp_core axW axW (fun _ _ => (5 : ℝ)) bxW axW SB0 1 0 = 0 :=
  ⟨(C6_resampler axW axW (fun _ _ => (5 : ℝ)) axW axW SB0).1 ⟨rfl, rfl⟩,
   (C6_resampler axW axW (fun _ _ => (5 : ℝ)) bxW axW SB0).2
      (by
        intro hc
        have hx := hc.1
        norm_num [axW, bxW] at hx)
      1 0
      (Or.inl (by norm_num [npMax, axW, bxW]))⟩

/-- The limit `sin t / t → 1` as `t → 0` away from `0` (derivative of sin at 0). -/
lemma tendsto_sin_div_zero :
    Tendsto (fun t : ℝ => Real.sin t / t) (𝓝[≠] (0 : ℝ)) (𝓝 1) := by
  have h : HasDerivAt Real.sin (Real.cos 0) 0 := Real.hasDerivAt_sin 0
  rw [hasDerivAt_iff_tendsto_slope, Real.cos_zero] at h
  exact h.congr fun t => by rw [slope_def_field]; simp

/-- As `n2 → 0⁺`, the argument `gamma * L` tends to `0` within `{0}ᶜ`. -/
lemma tendsto_gammaL (n0 L : ℝ) (hn0 : 0 < n0) (hL : 0 < L) :
    Tendsto (fun n2 : ℝ => lct_gamma n0 n2 * L) (𝓝[>] (0 : ℝ)) (𝓝[≠] 0) := by
  rw [tendsto_nhdsWithin_iff]
  constructor
  · have hc : Continuous fun n2 : ℝ => Real.sqrt (n2 / n0) * L :=
      (Real.continuous_sqrt.comp (continuous_id.div_const n0)).mul
        continuous_const
    have h : Tendsto (fun n2 : ℝ => Real.sqrt (n2 / n0) * L) (𝓝[>] (0 : ℝ))
        (𝓝 (Real.sqrt ((0 : ℝ) / n0) * L)) :=
      (hc.tendsto 0).mono_left nhdsWithin_le_nhds
    simpa [lct_gamma] using h
  · filter_upwards [self_mem_nhdsWithin] with n2 hn2
    exact Set.mem_compl_singleton_iff.mpr
      (mul_pos (Real.sqrt_pos.mpr (div_pos hn2 hn0)) hL).ne'

/-- As `n2 → 0⁺`, the matrix entry `A` tends to `1`. -/
lemma lct_A_tendsto (n0 L : ℝ) :
    Tendsto (fun n2 : ℝ => lct_A n0 n2 L) (𝓝[>] (0 : ℝ)) (𝓝 1) := by
  have hc : Continuous fun n2 : ℝ => Real.cos (Real.sqrt (n2 / n0) * L) :=
    Real.continuous_cos.comp
      ((Real.continuous_sqrt.comp (continuous_id.div_const n0)).mul
        continuous_const)
  have h : Tendsto (fun n2 : ℝ => Real.cos (Real.sqrt (n2 / n0) * L))
      (𝓝[>] (0 : ℝ)) (𝓝 (Real.cos (Real.sqrt ((0 : ℝ) / n0) * L))) :=
    (hc.tendsto 0).mono_left nhdsWithin_le_nhds
  simpa [lct_A, lct_gamma] using h

/-- As `n2 → 0⁺`, the matrix entry `D` tends to `1`. -/
lemma lct_D_tendsto (n0 L : ℝ) :
    Tendsto (fun n2 : ℝ => lct_D n0 n2 L) (𝓝[>] (0 : ℝ)) (𝓝 1) := by
  have hc : Continuous fun n2 : ℝ => Real.cos (Real.sqrt (n2 / n0) * L) :=
    Real.continuous_cos.comp
      ((Real.continuous_sqrt.comp (continuous_id.div_const n0)).mul
        continuous_const)
  have h : Tendsto (fun n2 : ℝ => Real.cos (Real.sqrt (n2 / n0) * L))
      (𝓝[>] (0 : ℝ)) (𝓝 (Real.cos (Real.sqrt ((0 : ℝ) / n0) * L))) :=
    (hc.tendsto 0).mono_left nhdsWithin_le_nhds
  simpa [lct_D, lct_gamma] using h

/-- As `n2 → 0⁺`, the matrix entry `C` tends to `0`. -/
lemma lct_C_tendsto (n0 L lam l_scale : ℝ) :
    Tendsto (fun n2 : ℝ => lct_C n0 n2 L lam l_scale) (𝓝[>] (0 : ℝ)) (𝓝 0) := by
  have hg : Continuous fun n2 : ℝ => Real.sqrt (n2 / n0) :=
    Real.continuous_sqrt.comp (continuous_id.div_const n0)
  have hc : Continuous fun n2 : ℝ =>
      -Real.sqrt (n2 / n0) * Real.sin (Real.sqrt (n2 / n0) * L) / lam *
        l_scale ^ 2 :=
    (((hg.neg.mul (Real.continuous_sin.comp (hg.mul continuous_const))).div_const
        lam).mul continuous_const)
  have h : Tendsto (fun n2 : ℝ =>
      -Real.sqrt (n2 / n0) * Real.sin (Real.sqrt (n2 / n0) * L) / lam *
        l_scale ^ 2) (𝓝[>] (0 : ℝ))
      (𝓝 (-Real.sqrt ((0 : ℝ) / n0) * Real.sin (Real.sqrt ((0 : ℝ) / n0) * L) /
        lam * l_scale ^ 2)) :=
    (hc.tendsto 0).mono_left nhdsWithin_le_nhds
  simpa [lct_C, lct_gamma] using h

/-- As `n2 → 0⁺`, the matrix entry `B` tends to `L * lam / l_scale ^ 2`. -/
lemma lct_B_tendsto (n0 L lam l_scale : ℝ) (hn0 : 0 < n0) (hL : 0 < L) :
    Tendsto (fun n2 : ℝ => lct_B n0 n2 L lam l_scale) (𝓝[>] (0 : ℝ))
      (𝓝 (L * lam / l_scale ^ 2)) := by
  by_cases hl : l_scale = 0
  · have hz : (fun n2 : ℝ => lct_B n0 n2 L lam l_scale) = fun _ => 0 := by
      funext n2
      simp [lct_B, hl]
    rw [hz, hl]
    simp
  · have h1 : Tendsto (fun n2 : ℝ =>
        ((fun t : ℝ => Real.sin t / t) ∘ fun n2 : ℝ => lct_gamma n0 n2 * L) n2 *
          (L * lam / l_scale ^ 2)) (𝓝[>] (0 : ℝ))
        (𝓝 (1 * (L * lam / l_scale ^ 2))) :=
      (tendsto_sin_div_zero.comp (tendsto_gammaL n0 L hn0 hL)).mul_const _
    rw [one_mul] at h1
    refine h1.congr' ?_
    filter_upwards [self_mem_nhdsWithin] with n2 hn2
    have hgpos : 0 < lct_gamma n0 n2 := Real.sqrt_pos.mpr (div_pos hn2 hn0)
    simp only [Function.comp, lct_B]
    field_simp
    ring

/-- C3 counterexample: at n0 = 2, L = 1, wavelength 1, l_scale 1, the B
entry of the n0n2 LCT matrix does not converge to `L/n0 * lam / l_scale^2`
(it converges to `L * lam / l_scale^2 = 1`, not `1/2`). -/
theorem C3_counterexample :
    ¬ Tendsto (fun n2 : ℝ => lct_B 2 n2 1 1 1) (𝓝[>] (0 : ℝ))
      (𝓝 ((1 : ℝ) / 2 * 1 / 1 ^ 2)) := by
  intro hcl
  have hB := lct_B_tendsto 2 1 1 1 (by norm_num) (by norm_num)
  have h := tendsto_nhds_unique hcl hB
  norm_num at h

/-- C3 (amended): in the n0n2 LCT strategy, as n2 → 0⁺ with n0 > 0 and
L > 0 (wavelength and l_scale fixed), the ABCD matrix converges to
`[[1, L * lam / l_scale^2], [0, 1]]`; in particular the n2 = 0 degenerate
case has a well-defined pure-drift limit with A → 1, C → 0, D → 1. -/
theorem C3_drift_limit (n0 L lam l_scale : ℝ) (hn0 : 0 < n0) (hL : 0 < L) :
    Tendsto (fun n2 : ℝ => lct_A n0 n2 L) (𝓝[>] (0 : ℝ)) (𝓝 1) ∧
    Tendsto (fun n2 : ℝ => lct_B n0 n2 L lam l_scale) (𝓝[>] (0 : ℝ))
      (𝓝 (L * lam / l_scale ^ 2)) ∧
    Tendsto (fun n2 : ℝ => lct_C n0 n2 L lam l_scale) (𝓝[>] (0 : ℝ)) (𝓝 0) ∧
    Tendsto (fun n2 : ℝ => lct_D n0 n2 L) (𝓝[>] (0 : ℝ)) (𝓝 1) :=
  ⟨lct_A_tendsto n0 L, lct_B_tendsto n0 L lam l_scale hn0 hL,
   lct_C_tendsto n0 L lam l_scale, lct_D_tendsto n0 L⟩

/-- C3 witness: the drift limit at n0 = 1, L = 1, wavelength 1, l_scale 1. -/
theorem C3_witness :
    Tendsto (fun n2 : ℝ => lct_A 1 n2 1) (𝓝[>] (0 : ℝ)) (𝓝 1) ∧
    Tendsto (fun n2 : ℝ => lct_B 1 n2 1 1 1) (𝓝[>] (0 : ℝ))
      (𝓝 ((1 : ℝ) * 1 / 1 ^ 2)) ∧
    Tendsto (fun n2 : ℝ => lct_C 1 n2 1 1 1) (𝓝[>] (0 : ℝ)) (𝓝 0) ∧
    Tendsto (fun n2 : ℝ => lct_D 1 n2 1) (𝓝[>] (0 : ℝ)) (𝓝 1) :=
  C3_drift_limit 1 1 1 1 (by norm_num) (by norm_num)

/-- The flat-top correction factor is positive for positive absorption and
slice length. -/
lemma correction_factor_pos (alpha L z : ℝ) (ha : 0 < alpha) (hL : 0 < L) :
    0 < correction_factor alpha L z := by
  unfold correction_factor
  apply div_pos
  · apply div_pos
    · have h : -alpha * (z + L / 2) < -alpha * (z - L / 2) := by
        nlinarith [mul_pos ha hL]
      have h2 := Real.exp_lt_exp.mpr h
      linarith
    · exact ha
  · exact mul_pos (Real.exp_pos _) hL

/-- The super-Gaussian profile is positive (it is an exponential). -/
lemma super_gaussian_profile_pos (w ox oy g xv yv : ℝ) :
    0 < super_gaussian_profile w ox oy g xv yv := by
  unfold super_gaussian_profile
  exact Real.exp_pos _

/-- The quantity `1 - exp x` is positive for negative `x`. -/
lemma one_sub_exp_pos (x : ℝ) (hx : x < 0) : 0 < 1 - Real.exp x := by
  have h := Real.exp_lt_one_iff.mpr hx
  linarith

/-- The radial-integral normalization at Gaussian order 2 and unit waist. -/
lemma integral_factor_two_one : integral_factor 2 1 = 1 / 2 := by
  unfold integral_factor
  have h1 : ((2 : ℝ) - 2) / 2 = 0 := by norm_num
  have h2 : (2 : ℝ) / 2 = 1 := by norm_num
  rw [h1, h2, Real.rpow_zero, Real.Gamma_one]
  norm_num [Real.one_rpow]

/-- Swapping the leading factors of the source mesh and the claimed mesh is
a pure ring identity: the two definitions share their whole tail. -/
lemma left_claimed_swap (s : SliceCfg) (nslice : ℕ) (xv yv : ℝ) :
    left_pump s nslice xv yv *
        (pump_photon_energy s.pop.pump_wavelength / (planck_h * light_c)) =
      claimed_left_pump s nslice xv yv *
        (s.pop.pump_wavelength / (planck_h * light_c)) := by
  unfold left_pump claimed_left_pump
  ring

/-- The slice configuration of the C1 counterexample: unit length, first
slice, unit absorption/waist/energy, Gaussian order 2, zero offsets, and
pump wavelength 2. -/
def cfgC1 : SliceCfg := { length := 1, slice_index := 0, pop := samplePop }

/-- The source's mesh value at the C1 counterexample input is positive. -/
lemma C1_left_pump_pos : 0 < left_pump cfgC1 1 0 0 := by
  simp only [left_pump, cfgC1, samplePop]
  refine div_pos (mul_pos (mul_pos (mul_pos ?_ ?_) ?_) ?_) ?_
  · refine div_pos (by norm_num) (by norm_num [planck_h, light_c])
  · refine div_pos
      (mul_pos (mul_pos (mul_pos ?_ ?_) ?_) (super_gaussian_profile_pos _ _ _ _ _ _))
      (mul_pos Real.pi_pos ?_)
    · exact one_sub_exp_pos _ (by norm_num)
    · norm_num [fraction_to_heating]
    · norm_num
    · rw [integral_factor_two_one]
      norm_num
  · exact Real.exp_pos _
  · exact correction_factor_pos 1 1 _ one_pos one_pos
  · norm_num

/-- C1 counterexample: at a concrete one-sided-pump slice configuration the
source's excited-state mesh value differs from the claimed formula whose
leading factor is the pump photon energy divided by h c (the source instead
multiplies by the pump wavelength divided by h c). -/
theorem C1_counterexample :
    left_pump cfgC1 1 0 0 ≠ claimed_left_pump cfgC1 1 0 0 := by
  intro heq
  have hswap := left_claimed_swap cfgC1 1 0 0
  rw [← heq] at hswap
  have hcancel := mul_left_cancel₀ C1_left_pump_pos.ne' hswap
  norm_num [pump_photon_energy, planck_h, light_c, cfgC1, samplePop] at hcancel

/-- C1 (amended): for every slice with a one-sided (left) pump, the mesh
value at a cell equals (pump wavelength / hc) times
[(1 - exp(-alpha * L_total)) * (fraction of absorbed energy not lost to
heating) * pump energy * super-Gaussian profile] divided by
(pi * radial-integral normalization), times exp(-alpha * z), times the
flat-top correction, divided by (slice length * slice count), with z the
slice-center position. -/
theorem C1_left_pump_formula (s : SliceCfg) (nslice : ℕ) (xv yv : ℝ) :
    left_pump s nslice xv yv =
      s.pop.pump_wavelength / (planck_h * light_c) *
          ((1 - Real.exp (-(s.pop.crystal_alpha * (s.length * (nslice : ℝ))))) *
            (1 - fraction_to_heating) * s.pop.pump_energy *
            super_gaussian_profile s.pop.pump_waist s.pop.pump_offset_x
              s.pop.pump_offset_y s.pop.pump_gaussian_order xv yv) /
          (Real.pi * integral_factor s.pop.pump_gaussian_order s.pop.pump_waist) *
          Real.exp (-(s.pop.crystal_alpha * slice_z_left s)) *
          correction_factor s.pop.crystal_alpha s.length (slice_z_left s) /
        (s.length * (nslice : ℝ)) := by
  unfold left_pump
  ring_nf
